import Mathlib

/-!
Verification development for the face-attendance client.

The repository is a browser client with two React components:

* `FaceAttendanceSystem` (file A): a camera session, a fixed-interval
  capture-and-verify polling loop, and an in-memory attendance log.
* `FaceRegister` (file B): a camera session, a capped pending list of
  captured images, per-image registration requests, a single-shot verify,
  and a form reset.

The embedding below is a shallow, purely functional translation of those
components.  Browser nondeterminism (device grants, produced frames,
HTTP responses, clock readings) is passed in as explicit inputs.
Effects on browser-level resources (media-stream tracks, object URLs)
are recorded in explicit ledgers so that the resource claims can be
stated: `CamWorld.liveTracks` holds the ids of media tracks that have
been created and not stopped, and `RegState.revokedUrls` records every
URL passed to `URL.revokeObjectURL` (the source never calls it, so no
operation extends this ledger).
-/

/-- A captured JPEG blob, identified by an opaque number. -/
structure Blob where
  num : Nat
deriving DecidableEq, Repr

/-- Model of `URL.createObjectURL`: a deterministic URL derived from the blob. -/
def createObjectURL (b : Blob) : String :=
  "blob:" ++ toString b.num

/-- A `MediaStream` as returned by `navigator.mediaDevices.getUserMedia`:
a stream id plus the ids of its tracks. -/
structure MediaStream where
  sid : Nat
  trackIds : List Nat
deriving DecidableEq, Repr

/-- The browser-side world of media tracks: which track ids are currently
live (created and not yet stopped), every stream handed out so far, and
fresh-id counters. -/
structure CamWorld where
  liveTracks : List Nat
  created : List MediaStream
  nextTrack : Nat
  nextSid : Nat
deriving DecidableEq, Repr

def initCamWorld : CamWorld :=
  ⟨[], [], 0, 0⟩

/-- `getUserMedia` succeeding: a fresh stream with `k` fresh live tracks. -/
def CamWorld.acquire (w : CamWorld) (k : Nat) : CamWorld × MediaStream :=
  let ts := (List.range k).map (fun i => w.nextTrack + i)
  let st : MediaStream := ⟨w.nextSid, ts⟩
  (⟨w.liveTracks ++ ts, w.created ++ [st], w.nextTrack + k, w.nextSid + 1⟩, st)

/-- `stream.getTracks().forEach(track => track.stop())`: every track of the
stream stops being live. -/
def CamWorld.stopAllTracks (w : CamWorld) (st : MediaStream) : CamWorld :=
  { w with liveTracks := w.liveTracks.filter (fun t => decide (t ∉ st.trackIds)) }

/-- A stream is active while at least one of its tracks is live. -/
def CamWorld.streamActive (w : CamWorld) (st : MediaStream) : Bool :=
  st.trackIds.any (fun t => decide (t ∈ w.liveTracks))

/-- Two streams own disjoint sets of track ids.  This relation is symmetric. -/
def TracksDisjoint (a b : MediaStream) : Prop :=
  ∀ t, t ∈ a.trackIds → t ∉ b.trackIds

/-- Outcome of a `getUserMedia` call: the device is granted (the stream gets
`k` tracks) or the promise rejects with an error message. -/
inductive CamOutcome
  | granted (k : Nat)
  | denied (msg : String)
deriving DecidableEq, Repr

namespace FaceAttendance

/-- `AttendanceRecord` of file A. -/
structure AttendanceRecord where
  userId : String
  timestamp : String
  confidenceScore : ℚ
deriving DecidableEq, Repr

/-- `VerifyResponse` of file A: the JSON body of a 2xx `/verify` response. -/
structure VerifyResponse where
  verified : Bool
  user_id : String
  confidence_score : ℚ
  message : Option String
deriving DecidableEq, Repr

/-- Outcome of one `fetch(baseURL + "/verify")` call: a non-2xx response
(`response.ok` false, carrying `status` and `statusText`), a rejected fetch
(network failure), or a 2xx response with a parsed JSON body. -/
inductive VerifyOutcome
  | httpError (status : Nat) (statusText : String)
  | networkError (msg : String)
  | ok (data : VerifyResponse)
deriving DecidableEq, Repr

/-- A toast notification: `toast.success(msg)` or `toast.error(data?.message)`
(the latter may receive an absent message). -/
inductive Toast
  | success (msg : String)
  | error (msg : Option String)
deriving DecidableEq, Repr

/-- State of the `FaceAttendanceSystem` component: its React state and refs
(`isCapturing`, `attendanceLog`, `error`, `processing`, `streamRef`,
`videoRef.srcObject` as `videoSrc`, `intervalRef` as `intervalArmed`),
the emitted toasts, and the browser camera world. -/
structure AttState where
  isCapturing : Bool
  attendanceLog : List AttendanceRecord
  error : Option String
  processing : Bool
  streamRef : Option MediaStream
  videoSrc : Option Nat
  intervalArmed : Bool
  toasts : List Toast
  world : CamWorld
deriving DecidableEq, Repr

def initAttState : AttState :=
  ⟨false, [], none, false, none, none, false, [], initCamWorld⟩

/-- `startCamera` of file A.  On grant it assigns `streamRef.current` and, if
the video element exists, binds the stream to it; it does NOT stop any
previously held stream.  On rejection (or a missing video element) the error
is caught locally and surfaced via `setError`; nothing is rethrown. -/
def startCamera (s : AttState) (cam : CamOutcome) (videoElem : Bool) : AttState :=
  let s0 := { s with error := none }
  match cam with
  | CamOutcome.denied msg =>
      { s0 with error := some ("Could not access camera: " ++ msg) }
  | CamOutcome.granted k =>
      let p := s0.world.acquire k
      let s1 := { s0 with world := p.1, streamRef := some p.2 }
      if videoElem then { s1 with videoSrc := some p.2.sid }
      else { s1 with error := some ("Could not access camera: Video element not available") }

/-- `stopCamera` of file A: stops all tracks of the held stream, nulls the
ref, and clears the video element's binding. -/
def stopCamera (s : AttState) : AttState :=
  let s1 := match s.streamRef with
    | some st => { s with world := s.world.stopAllTracks st, streamRef := none }
    | none => s
  { s1 with videoSrc := none }

/-- `sendFrameToBackend` of file A, given the `captureFrame` result and the
outcome of the `/verify` call.  Returns the updated state and the boolean the
function returns. -/
def sendFrameToBackend (s : AttState) (blob : Option Blob) (resp : VerifyOutcome)
    (now : String) : AttState × Bool :=
  match blob with
  | none => (s, false)
  | some _ =>
    let s1 := { s with processing := true }
    match resp with
    | VerifyOutcome.httpError status _ =>
        ({ s1 with
            processing := false,
            error := some ("Error verifying face: Server responded with " ++ toString status) },
         false)
    | VerifyOutcome.networkError msg =>
        ({ s1 with
            processing := false,
            error := some ("Error verifying face: " ++ msg) }, false)
    | VerifyOutcome.ok data =>
        let s2 := { s1 with processing := false }
        if data.verified then
          let newAttendance : AttendanceRecord :=
            ⟨data.user_id, now, data.confidence_score⟩
          ({ s2 with
              toasts := s2.toasts ++
                [Toast.success ("Successfully recorded attendance for " ++ data.user_id)],
              attendanceLog := newAttendance :: s2.attendanceLog }, true)
        else
          ({ s2 with toasts := s2.toasts ++ [Toast.error data.message] }, false)

/-- `stopAttendance` of file A: clears the capturing flag, stops the camera,
and cancels the repeating timer. -/
def stopAttendance (s : AttState) : AttState :=
  let s1 := stopCamera { s with isCapturing := false }
  { s1 with intervalArmed := false }

/-- `startAttendance` of file A.  If already capturing it returns at once.
Otherwise it sets the capturing flag, runs `startCamera`, and then waits for
the video element to report ready data before arming the 2000 ms interval.
When the video element exists but no stream was bound to it (camera start
failed), `readyState` stays below 2 and `onloadeddata` never fires, so the
await never resolves and the interval is never armed; the observable state at
that point is returned.  When the video element is missing, the readiness
wait is skipped and the interval is armed regardless. -/
def startAttendance (s : AttState) (cam : CamOutcome) (videoElem : Bool) : AttState :=
  if s.isCapturing then s
  else
    let s1 := startCamera { s with isCapturing := true } cam videoElem
    if videoElem then
      if s1.videoSrc.isSome then { s1 with intervalArmed := true } else s1
    else
      { s1 with intervalArmed := true }

/-- The nondeterministic inputs of one timer tick: the frame produced by
`captureFrame` (none when the surface is unavailable or encoding failed),
the `/verify` outcome, and the clock reading used for the timestamp. -/
structure TickInput where
  blob : Option Blob
  resp : VerifyOutcome
  now : String
deriving Repr

/-- One firing of the interval callback of `startAttendance`: capture a
frame, send it to the backend, and stop the loop if it reported verified.
The callback only runs while the interval is armed. -/
def pollTick (s : AttState) (i : TickInput) : AttState :=
  if s.intervalArmed then
    let p := sendFrameToBackend s i.blob i.resp i.now
    if p.2 then stopAttendance p.1 else p.1
  else s

/-- A polling run: successive timer ticks applied to the state. -/
def runPoll (s : AttState) (ticks : List TickInput) : AttState :=
  ticks.foldl pollTick s

end FaceAttendance

namespace FaceRegister

/-- `CapturedImage` of file B: id from `Date.now()`, the JPEG blob, and the
object URL created for the preview. -/
structure CapturedImage where
  id : Nat
  blob : Blob
  url : String
deriving DecidableEq, Repr

/-- The `type` field of `MessageState`: `"error" | "success" | "info" | ""`. -/
inductive MsgType
  | error
  | success
  | info
  | blank
deriving DecidableEq, Repr

/-- `MessageState` of file B. -/
structure MessageState where
  text : String
  type : MsgType
deriving DecidableEq, Repr

/-- `VerificationResult` of file B: `user_id` and `confidence_score` are
optional in the response body. -/
structure VerificationResult where
  verified : Bool
  user_id : Option String
  confidence_score : Option ℚ
deriving DecidableEq, Repr

/-- `facingMode` state: `"user" | "environment"`. -/
inductive FacingMode
  | user
  | environment
deriving DecidableEq, Repr

/-- State of the `FaceRegister` component: its React state and refs, plus the
browser camera world and the ledger of URLs passed to `URL.revokeObjectURL`.
The source never calls `URL.revokeObjectURL`, so no operation below extends
`revokedUrls`. -/
structure RegState where
  userId : String
  capturedImages : List CapturedImage
  isLoading : Bool
  stremLoaded : Bool
  message : MessageState
  verificationResult : Option VerificationResult
  facingMode : FacingMode
  videoStreamRef : Option MediaStream
  videoSrc : Option Nat
  world : CamWorld
  revokedUrls : List String
deriving DecidableEq, Repr

def initRegState : RegState :=
  ⟨"", [], false, false, ⟨"", MsgType.blank⟩, none, FacingMode.user, none, none,
    initCamWorld, []⟩

/-- `stopCamera` of file B: stops all tracks of the stream held in
`videoStreamRef` (without nulling the ref), clears `stremLoaded`, and clears
the video element's binding. -/
def stopCamera (s : RegState) : RegState :=
  let s1 := match s.videoStreamRef with
    | some st => { s with world := s.world.stopAllTracks st }
    | none => s
  { s1 with stremLoaded := false, videoSrc := none }

/-- `startCamera` of file B: first stops any existing stream, then requests a
new one for the current facing mode; on grant it records the stream and binds
it to the video element, on rejection it surfaces a camera-access message. -/
def startCamera (s : RegState) (cam : CamOutcome) (videoElem : Bool) : RegState :=
  let s0 := if s.videoStreamRef.isSome then stopCamera s else s
  match cam with
  | CamOutcome.denied msg =>
      { s0 with
          message := ⟨"Camera access error: " ++ msg ++ ". Please grant camera permissions.",
                      MsgType.error⟩ }
  | CamOutcome.granted k =>
      let p := s0.world.acquire k
      let s1 := { s0 with world := p.1, videoStreamRef := some p.2, stremLoaded := true }
      if videoElem then { s1 with videoSrc := some p.2.sid } else s1

/-- `captureImage` of file B.  `now` is the `Date.now()` reading, `videoOk`
whether the video element, canvas and 2d context are available, and `blob`
the result `canvas.toBlob` passes to its callback. -/
def captureImage (s : RegState) (now : Nat) (videoOk : Bool) (blob : Option Blob) : RegState :=
  if 10 ≤ s.capturedImages.length then
    { s with message := ⟨"Maximum number of images (10) reached", MsgType.error⟩ }
  else if videoOk then
    match blob with
    | some b =>
        let imageObj : CapturedImage := ⟨now, b, createObjectURL b⟩
        { s with
            capturedImages := s.capturedImages ++ [imageObj],
            message := ⟨"Image captured successfully", MsgType.success⟩ }
    | none => s
  else s

/-- Model of JS `String.prototype.trim`: drops leading and trailing
whitespace from the string. -/
def jsTrim (s : String) : String :=
  ⟨((s.data.dropWhile Char.isWhitespace).reverse.dropWhile Char.isWhitespace).reverse⟩

/-- `removeImage` of file B: filters the pending list by id.  No other state
changes; in particular nothing is passed to `URL.revokeObjectURL`. -/
def removeImage (s : RegState) (imageId : Nat) : RegState :=
  { s with capturedImages := s.capturedImages.filter (fun img => img.id != imageId) }

/-- Outcome of one `fetch(baseURL + "/register")` call for one image. -/
inductive RegOutcome
  | ok
  | httpFail (statusText : String)
  | netFail (msg : String)
deriving DecidableEq, Repr

/-- The error message with which one image's registration promise rejects,
if it rejects: a non-2xx response throws `Registration failed: statusText`,
a network failure rejects with its own message. -/
def regFailMsg : RegOutcome → Option String
  | RegOutcome.ok => none
  | RegOutcome.httpFail st => some ("Registration failed: " ++ st)
  | RegOutcome.netFail m => some m

/-- The reason with which `Promise.all` over the per-image registration
promises rejects: the first rejecting promise's reason (in list order in
this deterministic model), or none when every promise fulfils. -/
def firstFailure (images : List CapturedImage) (backend : Nat → RegOutcome) : Option String :=
  match images with
  | [] => none
  | img :: rest =>
      match regFailMsg (backend img.id) with
      | some m => some m
      | none => firstFailure rest backend

/-- `registerUser` of file B, given the backend's outcome for each image id.
Returns the updated state together with the list of issued registration
requests as (subject id, image id) pairs; the `Promise.all` fan-out issues
one request per pending image before any outcome is awaited. -/
def registerUser (s : RegState) (backend : Nat → RegOutcome) :
    RegState × List (String × Nat) :=
  if jsTrim s.userId = "" then
    ({ s with message := ⟨"Please enter a user ID", MsgType.error⟩ }, [])
  else if s.capturedImages.length = 0 then
    ({ s with message := ⟨"Please capture at least one image", MsgType.error⟩ }, [])
  else
    let submitted := s.capturedImages.map (fun img => (s.userId, img.id))
    let s1 := { s with isLoading := true, message := ⟨"Registering user...", MsgType.info⟩ }
    let s2 := match firstFailure s1.capturedImages backend with
      | none =>
          { s1 with
              message := ⟨"User " ++ s1.userId ++ " registered successfully with " ++
                            toString s1.capturedImages.length ++ " images",
                          MsgType.success⟩ }
      | some m => { s1 with message := ⟨"Error: " ++ m, MsgType.error⟩ }
    ({ s2 with isLoading := false }, submitted)

/-- Rendering of an optional string inside a template literal. -/
def jsShow : Option String → String
  | none => "undefined"
  | some s => s

/-- The nondeterministic inputs of one `verifyFace` call. -/
structure VerifyInput where
  videoOk : Bool
  blob : Option Blob
  resp : FaceAttendance.VerifyOutcome
deriving Repr

/-- `verifyFace` of file B: single-shot capture and `/verify` submission.
With no held stream it only reports `Camera not available`.  When the video
surface is unavailable the try block falls through and only the loading flag
is reset by the `finally`. -/
def verifyFace (s : RegState) (inp : VerifyInput) : RegState :=
  if s.videoStreamRef.isNone then
    { s with message := ⟨"Camera not available", MsgType.error⟩ }
  else
    let s1 := { s with isLoading := true, message := ⟨"Verifying...", MsgType.info⟩ }
    if inp.videoOk then
      match inp.blob with
      | none =>
          { s1 with
              message := ⟨"Error: Failed to capture image for verification", MsgType.error⟩,
              verificationResult := none, isLoading := false }
      | some _ =>
          match inp.resp with
          | FaceAttendance.VerifyOutcome.httpError _ statusText =>
              { s1 with
                  message := ⟨"Error: Verification failed: " ++ statusText, MsgType.error⟩,
                  verificationResult := none, isLoading := false }
          | FaceAttendance.VerifyOutcome.networkError msg =>
              { s1 with
                  message := ⟨"Error: " ++ msg, MsgType.error⟩,
                  verificationResult := none, isLoading := false }
          | FaceAttendance.VerifyOutcome.ok data =>
              let result : VerificationResult :=
                ⟨data.verified, some data.user_id, some data.confidence_score⟩
              { s1 with
                  verificationResult := some result,
                  message := if data.verified then
                      ⟨"Verification successful! User: " ++ data.user_id, MsgType.success⟩
                    else ⟨"Verification failed", MsgType.error⟩,
                  isLoading := false }
    else { s1 with isLoading := false }

/-- `resetForm` of file B: clears the subject id, the pending list, the
message and any verification result.  Nothing is passed to
`URL.revokeObjectURL`. -/
def resetForm (s : RegState) : RegState :=
  { s with
      userId := "",
      capturedImages := [],
      message := ⟨"", MsgType.blank⟩,
      verificationResult := none }

/-- The operations a user (and the mount effect) can drive the `FaceRegister`
component through, with their nondeterministic browser inputs. -/
inductive RegOp
  | camStart (cam : CamOutcome) (videoElem : Bool)
  | camStop
  | capture (now : Nat) (videoOk : Bool) (blob : Option Blob)
  | remove (imageId : Nat)
  | register (backend : Nat → RegOutcome)
  | verify (inp : VerifyInput)
  | reset
  | setUserId (v : String)

/-- One step of the `FaceRegister` component. -/
def stepReg (s : RegState) : RegOp → RegState
  | RegOp.camStart cam videoElem => startCamera s cam videoElem
  | RegOp.camStop => stopCamera s
  | RegOp.capture now videoOk blob => captureImage s now videoOk blob
  | RegOp.remove imageId => removeImage s imageId
  | RegOp.register backend => (registerUser s backend).1
  | RegOp.verify inp => verifyFace s inp
  | RegOp.reset => resetForm s
  | RegOp.setUserId v => { s with userId := v }

/-- A run of the component from a state through a list of operations. -/
def runReg (s : RegState) (ops : List RegOp) : RegState :=
  ops.foldl stepReg s

/-- The operations that are allowed to shrink the pending image list. -/
def isRemoveOrReset : RegOp → Prop
  | RegOp.remove _ => True
  | RegOp.reset => True
  | _ => False

/-- The camera-session invariant of the `FaceRegister` component: every live
track belongs to the stream currently held in `videoStreamRef`, that stream
was handed out by `getUserMedia`, every handed-out stream's tracks are below
the fresh-track counter, and distinct handed-out streams own disjoint
tracks. -/
structure CamInv (s : RegState) : Prop where
  live_sub : ∀ t ∈ s.world.liveTracks,
    ∃ st, s.videoStreamRef = some st ∧ t ∈ st.trackIds
  ref_created : ∀ st, s.videoStreamRef = some st → st ∈ s.world.created
  created_bounded : ∀ st ∈ s.world.created, ∀ t ∈ st.trackIds, t < s.world.nextTrack
  created_pairwise : s.world.created.Pairwise TracksDisjoint

end FaceRegister

/-! ## Concrete scenarios used by the claim theorems -/

/-- The poller after a successful user start: camera granted, video element
present, interval armed. -/
def pollStarted : FaceAttendance.AttState :=
  FaceAttendance.startAttendance FaceAttendance.initAttState (CamOutcome.granted 1) true

/-- A tick whose `/verify` response is 2xx with `verified = false`. -/
def tickNoMatch : FaceAttendance.TickInput :=
  ⟨some ⟨5⟩, FaceAttendance.VerifyOutcome.ok ⟨false, "", 0, some ("No matching face found")⟩,
    "t"⟩

/-- A tick whose `/verify` response is 2xx with `verified = true`. -/
def tickVerified : FaceAttendance.TickInput :=
  ⟨some ⟨6⟩, FaceAttendance.VerifyOutcome.ok ⟨true, "u1", mkRat 92 100, none⟩, "t3"⟩

/-- A tick whose `/verify` call returns HTTP 500. -/
def tick500 : FaceAttendance.TickInput :=
  ⟨some ⟨7⟩, FaceAttendance.VerifyOutcome.httpError 500 ("Internal Server Error"), "t5"⟩

/-- A concrete pending list of two captured images. -/
def twoImages : List FaceRegister.CapturedImage :=
  [⟨1, ⟨1⟩, "blob:1"⟩, ⟨2, ⟨2⟩, "blob:2"⟩]

/-- A concrete full pending list of ten captured images. -/
def tenImages : List FaceRegister.CapturedImage :=
  (List.range 10).map (fun i => ⟨i, ⟨i⟩, toString i⟩)

/-! ## Claim theorems -/

/-- C4: for a polling run whose successive verification responses are
`verified:false`, `verified:false`, `verified:true`, exactly one
`AttendanceRecord` is appended to the log (after the third tick), the poller
transitions to Idle (capturing flag cleared, timer cancelled, camera stream
stopped and released), no record is appended for the two false responses, and
each false response only surfaces the endpoint's message as a transient
toast notification. -/
theorem poller_false_false_true_single_record :
    (FaceAttendance.runPoll pollStarted [tickNoMatch, tickNoMatch, tickVerified]).attendanceLog
        = [⟨"u1", "t3", mkRat 92 100⟩] ∧
    (FaceAttendance.runPoll pollStarted [tickNoMatch, tickNoMatch, tickVerified]).isCapturing
        = false ∧
    (FaceAttendance.runPoll pollStarted [tickNoMatch, tickNoMatch, tickVerified]).intervalArmed
        = false ∧
    (FaceAttendance.runPoll pollStarted [tickNoMatch, tickNoMatch, tickVerified]).streamRef
        = none ∧
    (FaceAttendance.runPoll pollStarted
        [tickNoMatch, tickNoMatch, tickVerified]).world.liveTracks = [] ∧
    (FaceAttendance.runPoll pollStarted [tickNoMatch]).attendanceLog = [] ∧
    (FaceAttendance.runPoll pollStarted [tickNoMatch, tickNoMatch]).attendanceLog = [] ∧
    (FaceAttendance.runPoll pollStarted [tickNoMatch, tickNoMatch]).toasts
        = [FaceAttendance.Toast.error (some ("No matching face found")),
           FaceAttendance.Toast.error (some ("No matching face found"))] := by
  decide

/-- C8: a `/verify` response with a non-2xx status is a hard failure of the
attempt: `sendFrameToBackend` returns false, appends no `AttendanceRecord`,
raises no toast, and surfaces a user-visible transport-error message built
from the status. -/
theorem verify_http_error_no_record (s : FaceAttendance.AttState) (b : Blob)
    (status : Nat) (statusText now : String) :
    (FaceAttendance.sendFrameToBackend s (some b)
        (FaceAttendance.VerifyOutcome.httpError status statusText) now).2 = false ∧
    (FaceAttendance.sendFrameToBackend s (some b)
        (FaceAttendance.VerifyOutcome.httpError status statusText) now).1.attendanceLog
        = s.attendanceLog ∧
    (FaceAttendance.sendFrameToBackend s (some b)
        (FaceAttendance.VerifyOutcome.httpError status statusText) now).1.error
        = some ("Error verifying face: Server responded with " ++ toString status) ∧
    (FaceAttendance.sendFrameToBackend s (some b)
        (FaceAttendance.VerifyOutcome.httpError status statusText) now).1.toasts
        = s.toasts := by
  exact ⟨rfl, rfl, rfl, rfl⟩

/-- C1 counterexample: the claim says every error from camera start or from a
verification submission during the loop forces a transition back to Idle with
no automatic retry.  Concretely: (a) after a denied camera start the error is
surfaced but the capturing flag stays set; (b) after a tick whose submission
fails with HTTP 500 the error is surfaced, yet the capturing flag and the
repeating timer both stay set, so the next tick automatically retries. -/
theorem poller_error_does_not_stop_loop :
    (FaceAttendance.startAttendance FaceAttendance.initAttState
        (CamOutcome.denied ("Permission denied")) true).error
        = some ("Could not access camera: Permission denied") ∧
    (FaceAttendance.startAttendance FaceAttendance.initAttState
        (CamOutcome.denied ("Permission denied")) true).isCapturing = true ∧
    (FaceAttendance.pollTick pollStarted tick500).error
        = some ("Error verifying face: Server responded with 500") ∧
    (FaceAttendance.pollTick pollStarted tick500).isCapturing = true ∧
    (FaceAttendance.pollTick pollStarted tick500).intervalArmed = true := by
  decide

/-- C1 (amended): every error from camera start or endpoint submission during
the polling loop surfaces a user-visible error message, but the poller does
not transition back to Idle: after a submission error (non-2xx response or
network failure) the capturing flag is unchanged and the repeating timer
remains armed, so the next tick retries automatically, and after a camera
start error the capturing flag remains set. -/
theorem poller_error_surfaced_but_loop_continues :
    (∀ (s : FaceAttendance.AttState) (b : Blob) (status : Nat) (statusText now : String),
      s.intervalArmed = true →
      (FaceAttendance.pollTick s ⟨some b,
          FaceAttendance.VerifyOutcome.httpError status statusText, now⟩).error
          = some ("Error verifying face: Server responded with " ++ toString status) ∧
      (FaceAttendance.pollTick s ⟨some b,
          FaceAttendance.VerifyOutcome.httpError status statusText, now⟩).isCapturing
          = s.isCapturing ∧
      (FaceAttendance.pollTick s ⟨some b,
          FaceAttendance.VerifyOutcome.httpError status statusText, now⟩).intervalArmed
          = true) ∧
    (∀ (s : FaceAttendance.AttState) (b : Blob) (msg now : String),
      s.intervalArmed = true →
      (FaceAttendance.pollTick s ⟨some b,
          FaceAttendance.VerifyOutcome.networkError msg, now⟩).error
          = some ("Error verifying face: " ++ msg) ∧
      (FaceAttendance.pollTick s ⟨some b,
          FaceAttendance.VerifyOutcome.networkError msg, now⟩).isCapturing = s.isCapturing ∧
      (FaceAttendance.pollTick s ⟨some b,
          FaceAttendance.VerifyOutcome.networkError msg, now⟩).intervalArmed = true) ∧
    (∀ (s : FaceAttendance.AttState) (msg : String) (videoElem : Bool),
      s.isCapturing = false →
      (FaceAttendance.startAttendance s (CamOutcome.denied msg) videoElem).error
          = some ("Could not access camera: " ++ msg) ∧
      (FaceAttendance.startAttendance s (CamOutcome.denied msg) videoElem).isCapturing
          = true) := by
  refine ⟨?_, ?_, ?_⟩
  · intro s b status statusText now h
    simp [FaceAttendance.pollTick, FaceAttendance.sendFrameToBackend, h]
  · intro s b msg now h
    simp [FaceAttendance.pollTick, FaceAttendance.sendFrameToBackend, h]
  · intro s msg videoElem h
    cases videoElem <;>
      simp [FaceAttendance.startAttendance, FaceAttendance.startCamera, h] <;>
      split <;> simp

/-- Witness for the amended C1 theorem at concrete inputs. -/
theorem poller_error_surfaced_but_loop_continues_witness :
    (FaceAttendance.pollTick pollStarted tick500).error
        = some ("Error verifying face: Server responded with 500") :=
  (poller_error_surfaced_but_loop_continues.1 pollStarted ⟨7⟩ 500
      ("Internal Server Error") ("t5") (by decide)).1

/-- C3: the claim says every pending image's preview object URL is released
exactly once, on `remove(id)` or on `reset()`.  The source never calls
`URL.revokeObjectURL`: after capturing an image and then resetting the form
(or removing the image), the image is gone from the list but its preview URL
was never revoked. -/
theorem preview_urls_never_revoked :
    (FaceRegister.captureImage FaceRegister.initRegState 1 true (some ⟨1⟩)).capturedImages
        = [⟨1, ⟨1⟩, "blob:1"⟩] ∧
    (FaceRegister.resetForm
        (FaceRegister.captureImage FaceRegister.initRegState 1 true
          (some ⟨1⟩))).capturedImages = [] ∧
    (FaceRegister.resetForm
        (FaceRegister.captureImage FaceRegister.initRegState 1 true
          (some ⟨1⟩))).revokedUrls = [] ∧
    (FaceRegister.removeImage
        (FaceRegister.captureImage FaceRegister.initRegState 1 true
          (some ⟨1⟩)) 1).capturedImages = [] ∧
    (FaceRegister.removeImage
        (FaceRegister.captureImage FaceRegister.initRegState 1 true
          (some ⟨1⟩)) 1).revokedUrls = [] := by
  decide

/-- C7: the claim says `remove(id)` with a present id decreases the list
length by exactly 1 and releases that entry's preview reference.  At the
failing input (a pending list holding images 1 and 2, removing id 1) the
entry is removed and the length drops by one, but `URL.revokeObjectURL` is
never called, so the entry's preview URL `blob:1` is not released; an absent
id leaves the list unchanged. -/
theorem removeImage_no_preview_release :
    (FaceRegister.removeImage { FaceRegister.initRegState with capturedImages := twoImages }
        1).capturedImages = [⟨2, ⟨2⟩, "blob:2"⟩] ∧
    (FaceRegister.removeImage { FaceRegister.initRegState with capturedImages := twoImages }
        1).capturedImages.length + 1 = twoImages.length ∧
    (FaceRegister.removeImage { FaceRegister.initRegState with capturedImages := twoImages }
        1).revokedUrls = [] ∧
    (FaceRegister.removeImage { FaceRegister.initRegState with capturedImages := twoImages }
        7).capturedImages = twoImages := by
  decide

/-! ## Helper lemmas about the Registration Flow -/

namespace FaceRegister

theorem startCamera_capturedImages (s : RegState) (cam : CamOutcome) (v : Bool) :
    (startCamera s cam v).capturedImages = s.capturedImages := by
  cases hr : s.videoStreamRef <;> cases cam <;> cases v <;>
    simp [startCamera, stopCamera, hr]

theorem stopCamera_capturedImages (s : RegState) :
    (stopCamera s).capturedImages = s.capturedImages := by
  cases hr : s.videoStreamRef <;> simp [stopCamera, hr]

theorem verifyFace_capturedImages (s : RegState) (inp : VerifyInput) :
    (verifyFace s inp).capturedImages = s.capturedImages := by
  rcases inp with ⟨videoOk, blob, resp⟩
  cases hr : s.videoStreamRef <;> cases videoOk <;> cases blob <;> cases resp <;>
    simp [verifyFace, hr]

/-- `registerUser` only writes the message and the loading flag: every other
field of the state is unchanged. -/
theorem registerUser_preserves (s : RegState) (backend : Nat → RegOutcome) :
    (registerUser s backend).1.userId = s.userId ∧
    (registerUser s backend).1.capturedImages = s.capturedImages ∧
    (registerUser s backend).1.facingMode = s.facingMode ∧
    (registerUser s backend).1.revokedUrls = s.revokedUrls ∧
    (registerUser s backend).1.world = s.world ∧
    (registerUser s backend).1.videoStreamRef = s.videoStreamRef ∧
    (registerUser s backend).1.videoSrc = s.videoSrc ∧
    (registerUser s backend).1.stremLoaded = s.stremLoaded ∧
    (registerUser s backend).1.verificationResult = s.verificationResult := by
  by_cases h1 : jsTrim s.userId = ""
  · simp [registerUser, h1]
  · by_cases h2 : s.capturedImages.length = 0
    · simp [registerUser, h1, h2]
    · rcases hf : firstFailure s.capturedImages backend with _ | m <;>
        simp [registerUser, h1, h2, hf]

theorem captureImage_length_le (s : RegState) (now : Nat) (videoOk : Bool)
    (blob : Option Blob) (h : s.capturedImages.length ≤ 10) :
    (captureImage s now videoOk blob).capturedImages.length ≤ 10 := by
  by_cases hc : 10 ≤ s.capturedImages.length
  · simp [captureImage, hc]
    omega
  · cases videoOk <;> cases blob <;> simp [captureImage, hc] <;> omega

theorem captureImage_length_ge (s : RegState) (now : Nat) (videoOk : Bool)
    (blob : Option Blob) :
    s.capturedImages.length ≤ (captureImage s now videoOk blob).capturedImages.length := by
  by_cases hc : 10 ≤ s.capturedImages.length
  · simp [captureImage, hc]
  · cases videoOk <;> cases blob <;> simp [captureImage, hc]

theorem stepReg_length_le (s : RegState) (op : RegOp)
    (h : s.capturedImages.length ≤ 10) :
    (stepReg s op).capturedImages.length ≤ 10 := by
  cases op with
  | camStart cam v => rw [stepReg, startCamera_capturedImages]; exact h
  | camStop => rw [stepReg, stopCamera_capturedImages]; exact h
  | capture now videoOk blob => exact captureImage_length_le s now videoOk blob h
  | remove imageId =>
      exact le_trans (List.length_filter_le _ s.capturedImages) h
  | register backend => rw [stepReg, (registerUser_preserves s backend).2.1]; exact h
  | verify inp => rw [stepReg, verifyFace_capturedImages]; exact h
  | reset => simp [stepReg, resetForm]
  | setUserId v => exact h

theorem runReg_length_le (ops : List RegOp) :
    ∀ s : RegState, s.capturedImages.length ≤ 10 →
      (runReg s ops).capturedImages.length ≤ 10 := by
  induction ops with
  | nil => intro s h; exact h
  | cons op rest ih =>
      intro s h
      exact ih (stepReg s op) (stepReg_length_le s op h)

theorem firstFailure_eq_none_iff (images : List CapturedImage)
    (backend : Nat → RegOutcome) :
    firstFailure images backend = none ↔
      ∀ img ∈ images, backend img.id = RegOutcome.ok := by
  induction images with
  | nil => simp [firstFailure]
  | cons img rest ih =>
      cases hb : backend img.id <;> simp [firstFailure, regFailMsg, hb, ih]

end FaceRegister

/-- The message type produced by a `registerUser` call that passes both
guards is `success` exactly when no per-image submission failed. -/
theorem registerUser_message_type (s : FaceRegister.RegState)
    (backend : Nat → FaceRegister.RegOutcome)
    (h1 : ¬ FaceRegister.jsTrim s.userId = "")
    (h2 : ¬ s.capturedImages.length = 0) :
    ((FaceRegister.registerUser s backend).1.message.type = FaceRegister.MsgType.success ↔
        FaceRegister.firstFailure s.capturedImages backend = none) ∧
    ((FaceRegister.registerUser s backend).1.message.type = FaceRegister.MsgType.error ↔
        ¬ FaceRegister.firstFailure s.capturedImages backend = none) := by
  rcases hf : FaceRegister.firstFailure s.capturedImages backend with _ | m <;>
    simp [FaceRegister.registerUser, h1, h2, hf]

/-- C5: `register(subjectId)` contract.  If the trimmed subject identifier is
empty or the pending image list is empty, a guard error message is reported
and nothing is submitted; otherwise every pending image is submitted as an
independent registration request for that identifier, the success message is
reported if and only if every individual submission succeeds, and if any one
submission fails the operation is reported with an error message (so no
success notification). -/
theorem registerUser_contract :
    (∀ (s : FaceRegister.RegState) (backend : Nat → FaceRegister.RegOutcome),
      FaceRegister.jsTrim s.userId = "" →
      (FaceRegister.registerUser s backend).2 = [] ∧
      (FaceRegister.registerUser s backend).1.message
          = ⟨"Please enter a user ID", FaceRegister.MsgType.error⟩) ∧
    (∀ (s : FaceRegister.RegState) (backend : Nat → FaceRegister.RegOutcome),
      ¬ FaceRegister.jsTrim s.userId = "" → s.capturedImages = [] →
      (FaceRegister.registerUser s backend).2 = [] ∧
      (FaceRegister.registerUser s backend).1.message
          = ⟨"Please capture at least one image", FaceRegister.MsgType.error⟩) ∧
    (∀ (s : FaceRegister.RegState) (backend : Nat → FaceRegister.RegOutcome),
      ¬ FaceRegister.jsTrim s.userId = "" → ¬ s.capturedImages = [] →
      (FaceRegister.registerUser s backend).2
          = s.capturedImages.map (fun img => (s.userId, img.id)) ∧
      ((FaceRegister.registerUser s backend).1.message.type
            = FaceRegister.MsgType.success ↔
          ∀ img ∈ s.capturedImages, backend img.id = FaceRegister.RegOutcome.ok) ∧
      ((∃ img ∈ s.capturedImages, ¬ backend img.id = FaceRegister.RegOutcome.ok) →
        (FaceRegister.registerUser s backend).1.message.type
            = FaceRegister.MsgType.error)) := by
  refine ⟨?_, ?_, ?_⟩
  · intro s backend h1
    constructor <;> simp [FaceRegister.registerUser, h1]
  · intro s backend h1 h2
    have h2' : s.capturedImages.length = 0 := by simp [h2]
    constructor <;> simp [FaceRegister.registerUser, h1, h2']
  · intro s backend h1 h2
    have h2' : ¬ s.capturedImages.length = 0 := by
      simpa [List.length_eq_zero] using h2
    refine ⟨?_, ?_, ?_⟩
    · simp [FaceRegister.registerUser, h1, h2']
    · rw [(registerUser_message_type s backend h1 h2').1,
        FaceRegister.firstFailure_eq_none_iff]
    · intro hex
      rw [(registerUser_message_type s backend h1 h2').2,
        FaceRegister.firstFailure_eq_none_iff]
      intro hall
      rcases hex with ⟨img, hmem, hne⟩
      exact hne (hall img hmem)

/-- Witness for the C5 contract: with subject id `u1` and two pending images
where the submission for image 2 fails with a non-2xx response, both images
are submitted and the operation is reported with an error message. -/
theorem registerUser_contract_witness :
    (FaceRegister.registerUser
        { FaceRegister.initRegState with userId := "u1", capturedImages := twoImages }
        (fun i => if i = 2 then FaceRegister.RegOutcome.httpFail ("Internal Server Error")
          else FaceRegister.RegOutcome.ok)).2 = [("u1", 1), ("u1", 2)] ∧
    (FaceRegister.registerUser
        { FaceRegister.initRegState with userId := "u1", capturedImages := twoImages }
        (fun i => if i = 2 then FaceRegister.RegOutcome.httpFail ("Internal Server Error")
          else FaceRegister.RegOutcome.ok)).1.message.type
        = FaceRegister.MsgType.error := by
  have h := registerUser_contract.2.2
    { FaceRegister.initRegState with userId := "u1", capturedImages := twoImages }
    (fun i => if i = 2 then FaceRegister.RegOutcome.httpFail ("Internal Server Error")
      else FaceRegister.RegOutcome.ok) (by decide) (by decide)
  exact ⟨by simpa using h.1, h.2.2 ⟨⟨2, ⟨2⟩, "blob:2"⟩, by decide, by decide⟩⟩

/-- C6: the pending image list never holds more than 10 images on any run
of the Registration Flow from its initial state, and a `capture()` call made
when the list already holds 10 images leaves the list unchanged and reports
the capacity notification. -/
theorem pending_images_cap :
    (∀ ops : List FaceRegister.RegOp,
      (FaceRegister.runReg FaceRegister.initRegState ops).capturedImages.length ≤ 10) ∧
    (∀ (s : FaceRegister.RegState) (now : Nat) (videoOk : Bool) (blob : Option Blob),
      s.capturedImages.length = 10 →
      (FaceRegister.captureImage s now videoOk blob).capturedImages = s.capturedImages ∧
      (FaceRegister.captureImage s now videoOk blob).message
          = ⟨"Maximum number of images (10) reached", FaceRegister.MsgType.error⟩) := by
  constructor
  · intro ops
    exact FaceRegister.runReg_length_le ops FaceRegister.initRegState (by decide)
  · intro s now videoOk blob h
    have hc : 10 ≤ s.capturedImages.length := by omega
    constructor <;> simp [FaceRegister.captureImage, hc]

/-- Witness for the C6 cap theorem: a one-capture run stays within the cap,
and a capture on a concrete full list of ten images leaves it unchanged. -/
theorem pending_images_cap_witness :
    (FaceRegister.runReg FaceRegister.initRegState
        [FaceRegister.RegOp.capture 1 true (some ⟨1⟩)]).capturedImages.length ≤ 10 ∧
    (FaceRegister.captureImage
        { FaceRegister.initRegState with capturedImages := tenImages } 99 true
        (some ⟨99⟩)).capturedImages = tenImages := by
  constructor
  · exact pending_images_cap.1 [FaceRegister.RegOp.capture 1 true (some ⟨1⟩)]
  · exact (pending_images_cap.2
      { FaceRegister.initRegState with capturedImages := tenImages }
      99 true (some ⟨99⟩) (by decide)).1

/-- C10: a `register(subjectId)` invocation, whether it succeeds or fails,
leaves the subject identifier, the pending image list (hence every entry and
its preview URL), the facing mode and the revocation ledger unchanged; and
the only operations of the Registration Flow that ever shrink the pending
list are `remove(id)` and `reset()`. -/
theorem registerUser_frame :
    (∀ (s : FaceRegister.RegState) (backend : Nat → FaceRegister.RegOutcome),
      (FaceRegister.registerUser s backend).1.userId = s.userId ∧
      (FaceRegister.registerUser s backend).1.capturedImages = s.capturedImages ∧
      (FaceRegister.registerUser s backend).1.facingMode = s.facingMode ∧
      (FaceRegister.registerUser s backend).1.revokedUrls = s.revokedUrls) ∧
    (∀ (s : FaceRegister.RegState) (op : FaceRegister.RegOp),
      (FaceRegister.stepReg s op).capturedImages.length < s.capturedImages.length →
      FaceRegister.isRemoveOrReset op) := by
  constructor
  · intro s backend
    obtain ⟨h1, h2, h3, h4, _⟩ := FaceRegister.registerUser_preserves s backend
    exact ⟨h1, h2, h3, h4⟩
  · intro s op
    cases op with
    | camStart cam v =>
        intro h
        simp [FaceRegister.stepReg, FaceRegister.startCamera_capturedImages] at h
    | camStop =>
        intro h
        simp [FaceRegister.stepReg, FaceRegister.stopCamera_capturedImages] at h
    | capture now videoOk blob =>
        intro h
        exact absurd h (not_lt.mpr (FaceRegister.captureImage_length_ge s now videoOk blob))
    | remove imageId => intro _; trivial
    | register backend =>
        intro h
        simp [FaceRegister.stepReg,
          (FaceRegister.registerUser_preserves s backend).2.1] at h
    | verify inp =>
        intro h
        simp [FaceRegister.stepReg, FaceRegister.verifyFace_capturedImages] at h
    | reset => intro _; trivial
    | setUserId v =>
        intro h
        simp [FaceRegister.stepReg] at h

/-- Witness for the C10 frame theorem at concrete inputs: a `reset` that
shrinks a one-image list is one of the allowed shrinking operations. -/
theorem registerUser_frame_witness :
    FaceRegister.isRemoveOrReset FaceRegister.RegOp.reset :=
  registerUser_frame.2 { FaceRegister.initRegState with capturedImages := twoImages }
    FaceRegister.RegOp.reset (by decide)

/-! ## Camera world lemmas -/

theorem mem_stopAllTracks {w : CamWorld} {st : MediaStream} {t : Nat} :
    t ∈ (w.stopAllTracks st).liveTracks ↔ t ∈ w.liveTracks ∧ t ∉ st.trackIds := by
  simp [CamWorld.stopAllTracks]

theorem streamActive_true_iff {w : CamWorld} {st : MediaStream} :
    w.streamActive st = true ↔ ∃ t ∈ st.trackIds, t ∈ w.liveTracks := by
  simp [CamWorld.streamActive]

theorem streamActive_eq_false {w : CamWorld} {st : MediaStream}
    (h : ∀ t ∈ st.trackIds, t ∉ w.liveTracks) : w.streamActive st = false := by
  rw [Bool.eq_false_iff]
  intro hT
  obtain ⟨t, ht, hl⟩ := streamActive_true_iff.mp hT
  exact h t ht hl

theorem mem_acquire_stream {w : CamWorld} {k t : Nat} :
    t ∈ ((w.acquire k).2).trackIds ↔ w.nextTrack ≤ t ∧ t < w.nextTrack + k := by
  simp only [CamWorld.acquire, List.mem_map, List.mem_range]
  constructor
  · rintro ⟨i, hi, rfl⟩
    omega
  · rintro ⟨h1, h2⟩
    exact ⟨t - w.nextTrack, by omega, by omega⟩

theorem acquire_liveTracks (w : CamWorld) (k : Nat) :
    (w.acquire k).1.liveTracks = w.liveTracks ++ ((w.acquire k).2).trackIds := rfl

theorem acquire_created (w : CamWorld) (k : Nat) :
    (w.acquire k).1.created = w.created ++ [(w.acquire k).2] := rfl

theorem acquire_nextTrack (w : CamWorld) (k : Nat) :
    (w.acquire k).1.nextTrack = w.nextTrack + k := rfl

theorem tracksDisjoint_symm : Symmetric TracksDisjoint := by
  intro a b hab t htb hta
  exact hab t hta htb

namespace FaceRegister

theorem camInv_init : CamInv initRegState := by
  refine ⟨?_, ?_, ?_, ?_⟩ <;> simp [initRegState, initCamWorld]

theorem stopCamera_world (s : RegState) (st : MediaStream)
    (hr : s.videoStreamRef = some st) :
    (stopCamera s).world = s.world.stopAllTracks st := by
  simp [stopCamera, hr]

theorem stopCamera_world_none (s : RegState) (hr : s.videoStreamRef = none) :
    (stopCamera s).world = s.world := by
  simp [stopCamera, hr]

theorem stopCamera_ref (s : RegState) :
    (stopCamera s).videoStreamRef = s.videoStreamRef := by
  cases hr : s.videoStreamRef <;> simp [stopCamera, hr]

theorem stopCamera_videoSrc (s : RegState) : (stopCamera s).videoSrc = none := by
  cases hr : s.videoStreamRef <;> simp [stopCamera, hr]

theorem stopCamera_world_created (s : RegState) :
    (stopCamera s).world.created = s.world.created := by
  cases hr : s.videoStreamRef <;>
    simp [stopCamera, hr, CamWorld.stopAllTracks]

theorem stopCamera_world_nextTrack (s : RegState) :
    (stopCamera s).world.nextTrack = s.world.nextTrack := by
  cases hr : s.videoStreamRef <;>
    simp [stopCamera, hr, CamWorld.stopAllTracks]

theorem stopCamera_world_live (s : RegState) (t : Nat)
    (h : t ∈ (stopCamera s).world.liveTracks) : t ∈ s.world.liveTracks := by
  cases hr : s.videoStreamRef with
  | none => rw [stopCamera_world_none s hr] at h; exact h
  | some st => rw [stopCamera_world s st hr] at h; exact (mem_stopAllTracks.mp h).1

/-- The camera invariant only constrains the world and the stream ref. -/
theorem camInv_of_eq {s s' : RegState} (hw : s'.world = s.world)
    (hr : s'.videoStreamRef = s.videoStreamRef) (h : CamInv s) : CamInv s' := by
  refine ⟨?_, ?_, ?_, ?_⟩ <;> simp only [hw, hr]
  · exact h.live_sub
  · exact h.ref_created
  · exact h.created_bounded
  · exact h.created_pairwise

theorem camInv_stopCamera (s : RegState) (h : CamInv s) : CamInv (stopCamera s) := by
  refine ⟨?_, ?_, ?_, ?_⟩
  · intro t ht
    obtain ⟨st, hst, hts⟩ := h.live_sub t (stopCamera_world_live s t ht)
    refine ⟨st, ?_, hts⟩
    rw [stopCamera_ref]
    exact hst
  · intro st hst
    rw [stopCamera_ref] at hst
    rw [stopCamera_world_created]
    exact h.ref_created st hst
  · intro st hst t ht
    rw [stopCamera_world_created] at hst
    rw [stopCamera_world_nextTrack]
    exact h.created_bounded st hst t ht
  · rw [stopCamera_world_created]
    exact h.created_pairwise

theorem live_nil_of_ref_none (s : RegState) (h : CamInv s)
    (hr : s.videoStreamRef = none) : s.world.liveTracks = [] := by
  rw [List.eq_nil_iff_forall_not_mem]
  intro t ht
  obtain ⟨st, hst, _⟩ := h.live_sub t ht
  rw [hr] at hst
  exact Option.noConfusion hst

theorem stopCamera_live_nil (s : RegState) (h : CamInv s) :
    (stopCamera s).world.liveTracks = [] := by
  rw [List.eq_nil_iff_forall_not_mem]
  intro t ht
  cases hr : s.videoStreamRef with
  | none =>
      rw [stopCamera_world_none s hr] at ht
      obtain ⟨st, hst, _⟩ := h.live_sub t ht
      rw [hr] at hst
      exact Option.noConfusion hst
  | some st0 =>
      rw [stopCamera_world s st0 hr] at ht
      obtain ⟨htl, hnot⟩ := mem_stopAllTracks.mp ht
      obtain ⟨st, hst, hts⟩ := h.live_sub t htl
      rw [hr] at hst
      injection hst with he
      refine hnot ?_
      rw [he]
      exact hts

theorem startCamera_denied_world (s : RegState) (msg : String) (v : Bool) :
    (startCamera s (CamOutcome.denied msg) v).world
        = (if s.videoStreamRef.isSome then stopCamera s else s).world ∧
    (startCamera s (CamOutcome.denied msg) v).videoStreamRef
        = (if s.videoStreamRef.isSome then stopCamera s else s).videoStreamRef := by
  cases hr : s.videoStreamRef <;> simp [startCamera, hr]

theorem startCamera_granted_world (s : RegState) (k : Nat) (v : Bool) :
    (startCamera s (CamOutcome.granted k) v).world
        = ((if s.videoStreamRef.isSome then stopCamera s else s).world.acquire k).1 ∧
    (startCamera s (CamOutcome.granted k) v).videoStreamRef
        = some ((if s.videoStreamRef.isSome then stopCamera s else s).world.acquire k).2 := by
  cases hr : s.videoStreamRef <;> cases v <;> simp [startCamera, hr]

theorem camInv_startCamera (s : RegState) (cam : CamOutcome) (v : Bool)
    (h : CamInv s) : CamInv (startCamera s cam v) := by
  set s0 := if s.videoStreamRef.isSome then stopCamera s else s with hs0
  have hinv0 : CamInv s0 := by
    rw [hs0]
    cases hx : s.videoStreamRef with
    | none => simpa [hx] using h
    | some st0 => simpa [hx] using camInv_stopCamera s h
  have hlive0 : s0.world.liveTracks = [] := by
    rw [hs0]
    cases hx : s.videoStreamRef with
    | none => simpa [hx] using live_nil_of_ref_none s h hx
    | some st0 => simpa [hx] using stopCamera_live_nil s h
  cases cam with
  | denied msg =>
      obtain ⟨hw, hrf⟩ := startCamera_denied_world s msg v
      rw [← hs0] at hw hrf
      exact camInv_of_eq hw hrf hinv0
  | granted k =>
      obtain ⟨hw, hrf⟩ := startCamera_granted_world s k v
      rw [← hs0] at hw hrf
      refine ⟨?_, ?_, ?_, ?_⟩
      · intro t ht
        rw [hw, acquire_liveTracks, hlive0, List.nil_append] at ht
        exact ⟨(s0.world.acquire k).2, by rw [hrf], ht⟩
      · intro st hst
        rw [hrf] at hst
        injection hst with he
        rw [hw, acquire_created, ← he]
        exact List.mem_append_right _ (List.mem_singleton_self _)
      · intro st hst t ht
        rw [hw, acquire_created] at hst
        rw [hw, acquire_nextTrack]
        rcases List.mem_append.mp hst with hold | hnew
        · exact lt_of_lt_of_le (hinv0.created_bounded st hold t ht) (Nat.le_add_right _ _)
        · rw [List.mem_singleton] at hnew
          subst hnew
          exact (mem_acquire_stream.mp ht).2
      · rw [hw, acquire_created, List.pairwise_append]
        refine ⟨hinv0.created_pairwise, by simp, ?_⟩
        intro a ha b hb
        rw [List.mem_singleton] at hb
        subst hb
        intro t hta htb
        have h1 := hinv0.created_bounded a ha t hta
        have h2 := (mem_acquire_stream.mp htb).1
        omega

theorem captureImage_camera (s : RegState) (now : Nat) (videoOk : Bool)
    (blob : Option Blob) :
    (captureImage s now videoOk blob).world = s.world ∧
    (captureImage s now videoOk blob).videoStreamRef = s.videoStreamRef := by
  by_cases hc : 10 ≤ s.capturedImages.length
  · simp [captureImage, hc]
  · cases videoOk <;> cases blob <;> simp [captureImage, hc]

theorem verifyFace_camera (s : RegState) (inp : VerifyInput) :
    (verifyFace s inp).world = s.world ∧
    (verifyFace s inp).videoStreamRef = s.videoStreamRef := by
  rcases inp with ⟨videoOk, blob, resp⟩
  cases hr : s.videoStreamRef <;> cases videoOk <;> cases blob <;> cases resp <;>
    simp [verifyFace, hr]

theorem camInv_stepReg (s : RegState) (op : RegOp) (h : CamInv s) :
    CamInv (stepReg s op) := by
  cases op with
  | camStart cam v => exact camInv_startCamera s cam v h
  | camStop => exact camInv_stopCamera s h
  | capture now videoOk blob =>
      exact camInv_of_eq (captureImage_camera s now videoOk blob).1
        (captureImage_camera s now videoOk blob).2 h
  | remove imageId => refine camInv_of_eq ?_ ?_ h <;> rfl
  | register backend =>
      exact camInv_of_eq (registerUser_preserves s backend).2.2.2.2.1
        (registerUser_preserves s backend).2.2.2.2.2.1 h
  | verify inp =>
      exact camInv_of_eq (verifyFace_camera s inp).1 (verifyFace_camera s inp).2 h
  | reset => refine camInv_of_eq ?_ ?_ h <;> rfl
  | setUserId v => refine camInv_of_eq ?_ ?_ h <;> rfl

theorem camInv_runReg (ops : List RegOp) :
    ∀ s : RegState, CamInv s → CamInv (runReg s ops) := by
  induction ops with
  | nil => intro s h; exact h
  | cons op rest ih => intro s h; exact ih (stepReg s op) (camInv_stepReg s op h)

/-- Under the camera invariant, at most one handed-out stream is active. -/
theorem atMostOneActive (s : RegState) (h : CamInv s) :
    ∀ st1 st2 : MediaStream, st1 ∈ s.world.created → st2 ∈ s.world.created →
      s.world.streamActive st1 = true → s.world.streamActive st2 = true →
      st1 = st2 := by
  have key : ∀ st : MediaStream, st ∈ s.world.created →
      s.world.streamActive st = true →
      ∀ stRef, s.videoStreamRef = some stRef → st = stRef := by
    intro st hmem hact stRef href
    obtain ⟨t, hts, htl⟩ := streamActive_true_iff.mp hact
    obtain ⟨st', hst', hts'⟩ := h.live_sub t htl
    rw [href] at hst'
    injection hst' with he
    rw [← he] at hts'
    by_contra hne
    have hd := List.Pairwise.forall tracksDisjoint_symm h.created_pairwise hmem
      (h.ref_created stRef href) hne
    exact hd t hts hts'
  intro st1 st2 h1 h2 ha1 ha2
  have hrefEx : ∃ stRef, s.videoStreamRef = some stRef := by
    obtain ⟨t, hts, htl⟩ := streamActive_true_iff.mp ha1
    obtain ⟨st', hst', _⟩ := h.live_sub t htl
    exact ⟨st', hst'⟩
  obtain ⟨stRef, href⟩ := hrefEx
  rw [key st1 h1 ha1 stRef href, key st2 h2 ha2 stRef href]

end FaceRegister

theorem attendance_stopCamera_world (s : FaceAttendance.AttState) (st : MediaStream)
    (hr : s.streamRef = some st) :
    (FaceAttendance.stopCamera s).world = s.world.stopAllTracks st := by
  simp [FaceAttendance.stopCamera, hr]

/-- C2 counterexample: the claim says starting a camera while a stream is
already active first stops every track of the previous stream.  In file A's
camera manager this is false: after a successful `startCamera` the held
stream `0` (track `0`) is active, and a second successful `startCamera`
leaves both stream `0` and the new stream `1` with live tracks — two media
streams active at once, the old one never stopped. -/
theorem attendance_startCamera_two_active_streams :
    (FaceAttendance.startCamera FaceAttendance.initAttState
        (CamOutcome.granted 1) true).streamRef = some ⟨0, [0]⟩ ∧
    (FaceAttendance.startCamera (FaceAttendance.startCamera FaceAttendance.initAttState
        (CamOutcome.granted 1) true) (CamOutcome.granted 1) true).world.streamActive
        ⟨0, [0]⟩ = true ∧
    (FaceAttendance.startCamera (FaceAttendance.startCamera FaceAttendance.initAttState
        (CamOutcome.granted 1) true) (CamOutcome.granted 1) true).world.streamActive
        ⟨1, [1]⟩ = true := by
  decide

/-- C2 (amended): in file B's camera manager (the Registration Flow), for
every sequence of operations from the initial state at most one handed-out
media stream is active at any time, and starting a camera while a stream is
held first stops every track of that previous stream (it is inactive
afterwards, whether the new acquisition is granted or denied).  In both
components every `stopCamera` halts all tracks of the then-held stream and
clears the video element's binding.  File A's `startCamera`, however, does
not stop a previously held stream (see the counterexample); there the single
active stream is only maintained by its caller, which starts a camera only
when not already capturing. -/
theorem camera_single_stream_invariant :
    (∀ ops : List FaceRegister.RegOp, ∀ st1 st2 : MediaStream,
      st1 ∈ (FaceRegister.runReg FaceRegister.initRegState ops).world.created →
      st2 ∈ (FaceRegister.runReg FaceRegister.initRegState ops).world.created →
      (FaceRegister.runReg FaceRegister.initRegState ops).world.streamActive st1 = true →
      (FaceRegister.runReg FaceRegister.initRegState ops).world.streamActive st2 = true →
      st1 = st2) ∧
    (∀ (s : FaceRegister.RegState) (st : MediaStream), s.videoStreamRef = some st →
      (FaceRegister.stopCamera s).world.streamActive st = false ∧
      (FaceRegister.stopCamera s).videoSrc = none) ∧
    (∀ (s : FaceAttendance.AttState) (st : MediaStream), s.streamRef = some st →
      (FaceAttendance.stopCamera s).world.streamActive st = false ∧
      (FaceAttendance.stopCamera s).videoSrc = none) ∧
    (∀ ops : List FaceRegister.RegOp, ∀ (st : MediaStream) (cam : CamOutcome) (v : Bool),
      (FaceRegister.runReg FaceRegister.initRegState ops).videoStreamRef = some st →
      (FaceRegister.startCamera (FaceRegister.runReg FaceRegister.initRegState ops)
          cam v).world.streamActive st = false) := by
  refine ⟨?_, ?_, ?_, ?_⟩
  · intro ops st1 st2 h1 h2 ha1 ha2
    exact FaceRegister.atMostOneActive (FaceRegister.runReg FaceRegister.initRegState ops)
      (FaceRegister.camInv_runReg ops FaceRegister.initRegState FaceRegister.camInv_init)
      st1 st2 h1 h2 ha1 ha2
  · intro s st hr
    refine ⟨?_, FaceRegister.stopCamera_videoSrc s⟩
    apply streamActive_eq_false
    intro t ht hmem
    rw [FaceRegister.stopCamera_world s st hr] at hmem
    exact (mem_stopAllTracks.mp hmem).2 ht
  · intro s st hr
    constructor
    · apply streamActive_eq_false
      intro t ht hmem
      rw [attendance_stopCamera_world s st hr] at hmem
      exact (mem_stopAllTracks.mp hmem).2 ht
    · cases hx : s.streamRef <;> simp [FaceAttendance.stopCamera, hx]
  · intro ops st cam v hr
    have hinv : FaceRegister.CamInv (FaceRegister.runReg FaceRegister.initRegState ops) :=
      FaceRegister.camInv_runReg ops FaceRegister.initRegState FaceRegister.camInv_init
    set s := FaceRegister.runReg FaceRegister.initRegState ops with hs
    apply streamActive_eq_false
    intro t ht hmem
    have hbound : t < s.world.nextTrack :=
      hinv.created_bounded st (hinv.ref_created st hr) t ht
    cases cam with
    | denied msg =>
        obtain ⟨hw, _⟩ := FaceRegister.startCamera_denied_world s msg v
        rw [hw] at hmem
        simp only [hr, Option.isSome_some, if_true] at hmem
        rw [FaceRegister.stopCamera_world s st hr] at hmem
        exact (mem_stopAllTracks.mp hmem).2 ht
    | granted k =>
        obtain ⟨hw, _⟩ := FaceRegister.startCamera_granted_world s k v
        rw [hw] at hmem
        simp only [hr, Option.isSome_some, if_true] at hmem
        rw [acquire_liveTracks] at hmem
        rcases List.mem_append.mp hmem with hold | hnew
        · rw [FaceRegister.stopCamera_world s st hr] at hold
          exact (mem_stopAllTracks.mp hold).2 ht
        · have hge := (mem_acquire_stream.mp hnew).1
          rw [FaceRegister.stopCamera_world_nextTrack] at hge
          omega

/-- Witness for the amended C2 theorem at concrete inputs: after one granted
start from the initial Registration Flow state, the two active-stream
hypotheses force stream equality; the then-held stream is fully stopped by
`stopCamera`; and a second start (granted or denied) leaves the previously
held stream inactive. -/
theorem camera_single_stream_invariant_witness :
    (⟨0, [0]⟩ : MediaStream) = ⟨0, [0]⟩ ∧
    (FaceRegister.stopCamera (FaceRegister.startCamera FaceRegister.initRegState
        (CamOutcome.granted 1) true)).world.streamActive ⟨0, [0]⟩ = false ∧
    (FaceRegister.startCamera (FaceRegister.startCamera FaceRegister.initRegState
        (CamOutcome.granted 1) true) (CamOutcome.granted 1)
        true).world.streamActive ⟨0, [0]⟩ = false := by
  refine ⟨?_, ?_, ?_⟩
  · exact camera_single_stream_invariant.1 [FaceRegister.RegOp.camStart
      (CamOutcome.granted 1) true] ⟨0, [0]⟩ ⟨0, [0]⟩ (by decide) (by decide)
      (by decide) (by decide)
  · exact (camera_single_stream_invariant.2.1 (FaceRegister.startCamera
      FaceRegister.initRegState (CamOutcome.granted 1) true) ⟨0, [0]⟩ (by decide)).1
  · exact camera_single_stream_invariant.2.2.2 [FaceRegister.RegOp.camStart
      (CamOutcome.granted 1) true] ⟨0, [0]⟩ (CamOutcome.granted 1) true (by decide)
